import Mathlib

/-!
Verification of the merge-then-validate pipeline of `iptcconcapy`
(`src/iptcconcapy/main.py`).

The embedding models:
  * CSV files as lists of rows, each row a list of field strings.  The
    Python `csv` writer/reader round-trip is the identity on field
    contents, so merging files is modelled directly on parsed rows.
  * `csv.DictReader` rows as an association list from header names to
    `Option String`: a row shorter than the header fills the missing
    keys with the Python value `None` (`restval`), modelled as
    `Option.none`; fields beyond the header go into the rest list.
  * Python string methods (`strip`, `replace`, `split`) on ASCII data.
    Unicode whitespace and Unicode decimal digits, which CPython also
    accepts, are not modelled; no claim depends on them.
  * `float(str)` as an exact decimal rational (CPython parses to an
    IEEE double; the rounding of a decimal literal never moves a value
    across the integer bounds 2 and 4 used here for the inputs the
    claims are about, and parse success/failure is unaffected).
  * Exceptions as `Except`: `StopIteration` from `next` on an empty
    file, `AttributeError` from calling a string method on `None`.
    `ValueError` from `float` is the one exception the code catches,
    so it is modelled by the parser returning `Option.none`.
-/

namespace IPTCconcapy

/-- Equality on `Except` results is decidable componentwise. -/
instance exceptDecEq {ε : Type _} {α : Type _} [DecidableEq ε] [DecidableEq α] :
    DecidableEq (Except ε α)
  | Except.ok a, Except.ok b =>
    if h : a = b then Decidable.isTrue (congrArg Except.ok h)
    else Decidable.isFalse (fun hh => h (Except.ok.inj hh))
  | Except.error a, Except.error b =>
    if h : a = b then Decidable.isTrue (congrArg Except.error h)
    else Decidable.isFalse (fun hh => h (Except.error.inj hh))
  | Except.ok _, Except.error _ => Decidable.isFalse (fun hh => nomatch hh)
  | Except.error _, Except.ok _ => Decidable.isFalse (fun hh => nomatch hh)

/-- Exceptions that can escape the modelled code uncaught. -/
inductive PyExn
  | stopIteration
  | attributeError
deriving DecidableEq

/-! ## Python string primitives -/

/-- ASCII whitespace as stripped by Python `str.strip()`. -/
def isPySpace (c : Char) : Bool :=
  c = ' ' || c = '\t' || c = '\n' || c = '\r' || c = '\x0b' || c = '\x0c'

/-- Python `str.strip()`: remove leading and trailing whitespace. -/
def pyStrip (s : String) : String :=
  ⟨((s.data.dropWhile isPySpace).reverse.dropWhile isPySpace).reverse⟩

/-- `leadsWith pat cs` is true when `pat` is an initial segment of `cs`. -/
def leadsWith : List Char → List Char → Bool
  | [], _ => true
  | _ :: _, [] => false
  | p :: ps, c :: cs => p = c && leadsWith ps cs

/-- Python `str.replace` on character lists: replace every non-overlapping
occurrence of `pat` left to right.  Fuel-driven so that the kernel can
evaluate it; fuel equal to the length of the subject suffices because every
step consumes at least one character.  (Python `replace` with an empty
pattern inserts between characters; the code only ever replaces the
non-empty pattern " Mio", and for an empty pattern this model is the
identity.) -/
def listReplaceF : ℕ → List Char → List Char → List Char → List Char
  | 0, _, _, s => s
  | _, _, _, [] => []
  | fuel + 1, pat, repl, c :: rest =>
    if leadsWith pat (c :: rest) && !pat.isEmpty then
      repl ++ listReplaceF fuel pat repl (rest.drop (pat.length - 1))
    else
      c :: listReplaceF fuel pat repl rest

/-- Python `s.replace(pat, repl)`. -/
def pyReplace (s pat repl : String) : String :=
  ⟨listReplaceF s.data.length pat.data repl.data s.data⟩

/-- The text before the first underscore: Python `s.split("_")[0]`. -/
def underscoreHead (s : String) : String :=
  ⟨s.data.takeWhile (fun c => c ≠ '_')⟩

/-! ## Python `float(str)`

CPython accepts optional surrounding whitespace, an optional sign, the
words inf / infinity / nan (case-insensitive), or a decimal literal
`digits [. digits] [exp]` / `. digits [exp]` with `exp = e [sign] digits`,
where single underscores may appear between digits.  Anything else raises
`ValueError`, modelled as `Option.none`. -/

/-- Value of a list of ASCII digits, most significant first. -/
def digitsToNat (ds : List Char) : ℕ :=
  ds.foldl (fun a c => a * 10 + (c.toNat - 48)) 0

/-- Every underscore must sit directly between two digits (PEP 515).
The first argument is the previous character, if any. -/
def underscoresOkAux : Option Char → List Char → Bool
  | _, [] => true
  | p, c :: rest =>
    if c = '_' then
      (match p, rest with
       | Option.some pc, n :: _ => pc.isDigit && n.isDigit
       | _, _ => false) && underscoresOkAux (Option.some c) rest
    else
      underscoresOkAux (Option.some c) rest

def underscoresOk (cs : List Char) : Bool :=
  underscoresOkAux Option.none cs

/-- A Python float value: an exact decimal rational `num / 10 ^ e`
(representation as produced by the parser, not normalised), or one of the
special values. -/
inductive PyFloat
  | finite (num : ℤ) (e : ℕ)
  | inf
  | neginf
  | nan
deriving DecidableEq

/-- Python `<=` on float values: `nan` compares false with everything,
finite values compare as the exact rationals they denote. -/
def pyLe : PyFloat → PyFloat → Bool
  | PyFloat.nan, _ => false
  | _, PyFloat.nan => false
  | PyFloat.neginf, _ => true
  | _, PyFloat.neginf => false
  | _, PyFloat.inf => true
  | PyFloat.inf, _ => false
  | PyFloat.finite n1 e1, PyFloat.finite n2 e2 => decide (n1 * 10 ^ e2 ≤ n2 * 10 ^ e1)

/-- Combine mantissa `m`, fraction length `f` and exponent `ex` into the
pair `(num, e)` denoting `num / 10 ^ e = m * 10 ^ (ex - f)`. -/
def shiftDec (m : ℕ) (f : ℕ) (ex : ℤ) : ℕ × ℕ :=
  if (f : ℤ) ≤ ex then (m * 10 ^ (ex - (f : ℤ)).toNat, 0) else (m, ((f : ℤ) - ex).toNat)

/-- Exponent digits after an optional sign; the whole rest must be digits. -/
def parseExpTail (sgn : ℤ) (r : List Char) : Option ℤ :=
  let ds := r.takeWhile Char.isDigit
  if ds.isEmpty || !(r.dropWhile Char.isDigit).isEmpty then Option.none
  else Option.some (sgn * (digitsToNat ds : ℤ))

/-- The optional exponent part of a float literal (input lowercased). -/
def parseExpPart : List Char → Option ℤ
  | [] => Option.some 0
  | 'e' :: '+' :: r => parseExpTail 1 r
  | 'e' :: '-' :: r => parseExpTail (-1) r
  | 'e' :: r => parseExpTail 1 r
  | _ => Option.none

/-- Unsigned decimal literal (lowercased, underscores already removed):
`digits [. digits] [exp]` or `. digits [exp]`, as `(num, e)`. -/
def parseMantissa (cs : List Char) : Option (ℕ × ℕ) :=
  let ip := cs.takeWhile Char.isDigit
  let r1 := cs.dropWhile Char.isDigit
  match r1 with
  | '.' :: r2 =>
    let fp := r2.takeWhile Char.isDigit
    let r3 := r2.dropWhile Char.isDigit
    if ip.isEmpty && fp.isEmpty then Option.none
    else
      match parseExpPart r3 with
      | Option.some ex => Option.some (shiftDec (digitsToNat (ip ++ fp)) fp.length ex)
      | Option.none => Option.none
  | _ =>
    if ip.isEmpty then Option.none
    else
      match parseExpPart r1 with
      | Option.some ex => Option.some (shiftDec (digitsToNat ip) 0 ex)
      | Option.none => Option.none

/-- Python `float(s)`: `Option.none` models `ValueError`. -/
def pyFloat (s : String) : Option PyFloat :=
  let cs := (pyStrip s).data
  let signed : Bool × List Char :=
    match cs with
    | '+' :: r => (false, r)
    | '-' :: r => (true, r)
    | r => (false, r)
  let neg := signed.1
  let low := signed.2.map Char.toLower
  if low = "inf".data || low = "infinity".data then
    Option.some (if neg then PyFloat.neginf else PyFloat.inf)
  else if low = "nan".data then
    Option.some PyFloat.nan
  else if underscoresOk low then
    match parseMantissa (low.filter (fun c => c ≠ '_')) with
    | Option.some me =>
      Option.some (PyFloat.finite (if neg then -(me.1 : ℤ) else (me.1 : ℤ)) me.2)
    | Option.none => Option.none
  else
    Option.none

/-! ## Constants of `main.py` -/

def COL_FILENAME : String := "Filename"
def COL_SIZE : String := "Size"
def COL_WIDTH : String := "Width"
def COL_OBJECT_NAME : String := "IPTC:ObjectName"
def COL_SUP_CATEGORY : String := "IPTC:Sup."
def COL_SOURCE : String := "IPTC:Source"

def CATEGORY : String := "MQB - Iconotheque"
def SOURCE : String := "evian"
def MIN_SIZE : PyFloat := PyFloat.finite 2 0
def MAX_SIZE : PyFloat := PyFloat.finite 4 0
def WIDTH_DPI : String := "3200 DPI"

/-! ## `csv.DictReader` rows -/

/-- Pair header names with the fields of a row; a row shorter than the
header fills the missing keys with the Python value `None`
(`DictReader` `restval`), modelled as `Option.none`. -/
def zipFill : List String → List String → List (String × Option String)
  | [], _ => []
  | h :: hs, [] => (h, Option.none) :: zipFill hs []
  | h :: hs, v :: vs => (h, Option.some v) :: zipFill hs vs

/-- A row as produced by `csv.DictReader`: one entry per header column in
header order, plus the fields beyond the header (stored under the
`restkey` `None` only when non-empty; such a non-empty list is truthy, so
it never triggers the missing-data check and is never read by name). -/
structure DictRow where
  entries : List (String × Option String)
  extras : List String
deriving DecidableEq

def dictRead (header row : List String) : DictRow :=
  { entries := zipFill header row, extras := row.drop header.length }

/-- Python `row.get(k, "")`: the stored value when the key is present
(possibly `None`, i.e. `Option.none`), the default `""` otherwise.  The
last entry wins, matching dict insertion order under duplicate names. -/
def pyGet (r : DictRow) (k : String) : Option String :=
  match r.entries.reverse.find? (fun e => e.1 == k) with
  | Option.some e => e.2
  | Option.none => Option.some ""

/-- Python truthiness test `not value` for a `DictReader` field value:
`None` and the empty string are falsy. -/
def pyFalsy : Option String → Bool
  | Option.none => true
  | Option.some s => s = ""

/-- `any(not value for value in row.values())`. -/
def anyMissing (r : DictRow) : Bool :=
  r.entries.any (fun e => pyFalsy e.2)

/-! ## The six checks of `check_csv`

Each check returns the list of error messages it appends; the payloads of
the `CheckError` constructors are the interpolated values of the printed
f-strings. -/

/-- One validation error message.  Rendered texts:
  * `missingData` — "Missing data"
  * `invalidSize` — "Invalid Size value"
  * `sizeOutOfRange v` — "Size (v Mio) is out of range (2-4 Mio)"
  * `widthMismatch w` — "Width should be (3200 DPI) but we find (w)"
  * `filenameMismatch f p` — "Filename (f) does not match IPTC:ObjectName (p)"
  * `categoryMismatch c` — "IPTC:Sup. should be (MQB - Iconotheque) but we find (c)"
  * `sourceMismatch s` — "IPTC:Source should be (evian) but we find (s)" -/
inductive CheckError
  | missingData
  | invalidSize
  | sizeOutOfRange (size : PyFloat)
  | widthMismatch (found : String)
  | filenameMismatch (filename oHead : String)
  | categoryMismatch (found : String)
  | sourceMismatch (found : String)
deriving DecidableEq

/-- Apply a Python `str` method (the continuation) to a `DictReader`
value: on the Python value `None` this raises `AttributeError`, which no
check catches. -/
def onStr {α : Type} (v : Option String) (k : String → Except PyExn α) : Except PyExn α :=
  match v with
  | Option.none => Except.error PyExn.attributeError
  | Option.some s => k s

/-- Sequencing of statements that may raise: an exception aborts, a
normal result feeds the continuation. -/
def step {α β : Type} (x : Except PyExn α) (k : α → Except PyExn β) : Except PyExn β :=
  match x with
  | Except.error e => Except.error e
  | Except.ok a => k a

/-- The size test on the string value of the `Size` field: replace every
occurrence of " Mio", strip whitespace, parse as float; a parse failure
(`ValueError`, the only caught exception) reports "Invalid Size value", a
value outside `[MIN_SIZE, MAX_SIZE]` reports the range error. -/
def sizeBody (s : String) : Except PyExn (List CheckError) :=
  match pyFloat (pyStrip (pyReplace s " Mio" "")) with
  | Option.none => Except.ok [CheckError.invalidSize]
  | Option.some size =>
    Except.ok
      (if pyLe MIN_SIZE size && pyLe size MAX_SIZE then []
       else [CheckError.sizeOutOfRange size])

/-- Lines 83-89: the `try` block around the size parse and range test. -/
def sizeCheck (r : DictRow) : Except PyExn (List CheckError) :=
  onStr (pyGet r COL_SIZE) sizeBody

def widthBody (s : String) : Except PyExn (List CheckError) :=
  Except.ok
    (if pyStrip s = WIDTH_DPI then []
     else [CheckError.widthMismatch (pyStrip s)])

/-- Lines 91-93: the `Width` field must equal `WIDTH_DPI`. -/
def widthCheck (r : DictRow) : Except PyExn (List CheckError) :=
  onStr (pyGet r COL_WIDTH) widthBody

def filenameBody (f o : String) : Except PyExn (List CheckError) :=
  Except.ok
    (if pyStrip f = underscoreHead (pyStrip o) then []
     else [CheckError.filenameMismatch (pyStrip f) (underscoreHead (pyStrip o))])

/-- Lines 95-101: `Filename` must equal the part of `IPTC:ObjectName`
before its first underscore. -/
def filenameCheck (r : DictRow) : Except PyExn (List CheckError) :=
  onStr (pyGet r COL_FILENAME) (fun f =>
    onStr (pyGet r COL_OBJECT_NAME) (filenameBody f))

def categoryBody (s : String) : Except PyExn (List CheckError) :=
  Except.ok
    (if pyStrip s = CATEGORY then []
     else [CheckError.categoryMismatch (pyStrip s)])

/-- Lines 103-107: the `IPTC:Sup.` field must equal `CATEGORY`. -/
def categoryCheck (r : DictRow) : Except PyExn (List CheckError) :=
  onStr (pyGet r COL_SUP_CATEGORY) categoryBody

def sourceBody (s : String) : Except PyExn (List CheckError) :=
  Except.ok
    (if pyStrip s = SOURCE then []
     else [CheckError.sourceMismatch (pyStrip s)])

/-- Lines 109-111: the `IPTC:Source` field must equal `SOURCE`. -/
def sourceCheck (r : DictRow) : Except PyExn (List CheckError) :=
  onStr (pyGet r COL_SOURCE) sourceBody

/-- One iteration of the row loop of `check_csv` (lines 77-111): the
missing-data check contributes first, then the five field checks run in
source order; an uncaught exception in any check aborts the whole
validation, discarding the errors gathered so far. -/
def checkRow (r : DictRow) : Except PyExn (List CheckError) :=
  step (sizeCheck r) (fun e2 =>
    step (widthCheck r) (fun e3 =>
      step (filenameCheck r) (fun e4 =>
        step (categoryCheck r) (fun e5 =>
          step (sourceCheck r) (fun e6 =>
            Except.ok ((if anyMissing r then [CheckError.missingData] else [])
              ++ e2 ++ e3 ++ e4 ++ e5 ++ e6))))))

/-- The data rows of `check_csv`, numbered from `n`.  `DictReader` skips
blank rows without numbering them; a row with at least one error is
reported together with its number and contents (lines 113-119). -/
def checkRows (hdr : List String) : ℕ → List (List String) → Except PyExn (List (ℕ × DictRow × List CheckError))
  | _, [] => Except.ok []
  | n, row :: rest =>
    if row = [] then checkRows hdr n rest
    else
      step (checkRow (dictRead hdr row)) (fun errs =>
        step (checkRows hdr (n + 1) rest) (fun rpt =>
          Except.ok ((if errs = [] then [] else [(n, dictRead hdr row, errs)]) ++ rpt)))

/-- `check_csv` (lines 56-119) on the parsed rows of the merged file: the
first row is the header, every later row is validated; the result is the
printed report (row number, row contents, errors, for each row with
errors), or the uncaught exception.  On a file with no rows `DictReader`
yields nothing and nothing is printed. -/
def check_csv : List (List String) → Except PyExn (List (ℕ × DictRow × List CheckError))
  | [] => Except.ok []
  | hdr :: rows => checkRows hdr 1 rows

/-! ## `concatenate_csv_files` (lines 24-53)

An input file is its list of parsed rows.  `next(csv_reader)` on a file
with no rows raises `StopIteration`; the header of the first file is
written once, every later header is discarded; data rows are appended in
order. -/

def concatGo : Bool → List (List String) → List (List (List String)) → Except PyExn (List (List String))
  | _, out, [] => Except.ok out
  | headerDone, out, f :: rest =>
    match f with
    | [] => Except.error PyExn.stopIteration
    | hdr :: rows => concatGo true (out ++ (if headerDone then rows else hdr :: rows)) rest

/-- The merge over the selected files, in listing order; the result is
the full content of the output file, or the uncaught exception. -/
def concatenate_csv_files (files : List (List (List String))) : Except PyExn (List (List String)) :=
  concatGo false [] files

/-! ## `main` (lines 122-145) -/

/-- `pathlib.PurePath.suffix` of a file name: the text from the last dot
on, unless that dot is the first or the last character. -/
def pySuffix (name : String) : String :=
  let cs := name.data
  match ((cs.enum.filter (fun p => p.2 = '.')).map Prod.fst).getLast? with
  | Option.none => ""
  | Option.some i => if 0 < i && i + 1 < cs.length then ⟨cs.drop i⟩ else ""

/-- The filesystem state `main` runs against: whether the input directory
exists, the directory entries (name and parsed CSV content, in listing
order), and the current content of `concatenated_output.csv` if present. -/
structure World where
  inputDirExists : Bool
  dirEntries : List (String × List (List String))
  outputFile : Option (List (List String))
deriving DecidableEq

/-- Observable outcome of a successful run of `main`: the final content
of the output file, whether the missing-directory message was printed
(in which case the merge and the validation never ran), and the printed
validation report. -/
structure MainResult where
  finalOutput : Option (List (List String))
  dirMissingMsg : Bool
  report : List (ℕ × DictRow × List CheckError)
deriving DecidableEq

/-- `main`: check the input directory, select the entries with suffix
".csv" in listing order, merge them into the output file, validate the
output file.  An uncaught exception aborts the run. -/
def pyMain (w : World) : Except PyExn MainResult :=
  if !w.inputDirExists then
    Except.ok { finalOutput := w.outputFile, dirMissingMsg := true, report := [] }
  else
    let files := (w.dirEntries.filter (fun e => pySuffix e.1 == ".csv")).map Prod.snd
    match concatenate_csv_files files with
    | Except.error e => Except.error e
    | Except.ok out =>
      match check_csv out with
      | Except.error e => Except.error e
      | Except.ok rpt =>
        Except.ok { finalOutput := Option.some out, dirMissingMsg := false, report := rpt }

/-! ## Sample data -/

/-- The header of the end-to-end scenario of the spec. -/
def sampleHeader : List String :=
  [COL_FILENAME, COL_SIZE, COL_WIDTH, COL_OBJECT_NAME, COL_SUP_CATEGORY, COL_SOURCE]

/-- A row passing all six checks. -/
def sampleRow (size objectName : String) : List String :=
  ["IMG001", size, "3200 DPI", objectName, "MQB - Iconotheque", "evian"]

/-! ## Lemmas about the merge -/

/-- Once the header has been written, the merge appends exactly the data
rows (all rows but the header) of the remaining files, in order. -/
lemma concatGo_true_ok (fs : List (List (List String))) (h : ∀ f ∈ fs, f ≠ []) :
    ∀ out, concatGo true out fs = Except.ok (out ++ (fs.map List.tail).flatten) := by
  induction fs with
  | nil => intro out; simp [concatGo]
  | cons f rest ih =>
    intro out
    cases f with
    | nil => exact absurd rfl (h [] (List.mem_cons_self _ _))
    | cons hdr rows =>
      have hrest : ∀ g ∈ rest, g ≠ [] := fun g hg => h g (List.mem_cons_of_mem _ hg)
      simp [concatGo, ih hrest, List.append_assoc]

/-- A file with no rows makes the merge raise `StopIteration`, whatever
has been written so far. -/
lemma concatGo_error_of_mem (fs : List (List (List String))) :
    ∀ (b : Bool) (out : List (List String)), [] ∈ fs →
      concatGo b out fs = Except.error PyExn.stopIteration := by
  induction fs with
  | nil => intro b out h; simp at h
  | cons f rest ih =>
    intro b out h
    cases f with
    | nil => simp [concatGo]
    | cons x xs =>
      have hrest : [] ∈ rest := by
        rcases List.mem_cons.mp h with h1 | h2
        · exact absurd h1.symm (by simp)
        · exact h2
      simp only [concatGo]
      exact ih true _ hrest

/-- C4: for a non-empty list of input files that all have a header row,
the merged output starts with the first file's header, followed only by
data rows: the header row is emitted exactly once, regardless of the
number of files. -/
theorem merged_header_is_first_and_once (hdr : List String) (t : List (List String))
    (rest : List (List (List String))) (h : ∀ f ∈ rest, f ≠ []) :
    concatenate_csv_files ((hdr :: t) :: rest) =
      Except.ok (hdr :: (t ++ (rest.map List.tail).flatten)) := by
  simp [concatenate_csv_files, concatGo, concatGo_true_ok rest h]

/-- Witness for C4 at two concrete two-row files sharing the header. -/
theorem merged_header_is_first_and_once_witness :
    concatenate_csv_files [[["A"], ["1"]], [["A"], ["2"]]] =
      Except.ok [["A"], ["1"], ["2"]] :=
  merged_header_is_first_and_once ["A"] [["1"]] [[["A"], ["2"]]] (by decide)

/-- C5: the data rows of the merged output are exactly the data rows of
all input files, in file order and within each file in row order, so
their number is the sum of the per-file data-row counts. -/
theorem merge_completeness (hdr : List String) (t : List (List String))
    (rest : List (List (List String))) (h : ∀ f ∈ rest, f ≠ []) :
    ∃ out, concatenate_csv_files ((hdr :: t) :: rest) = Except.ok out ∧
      out.tail = (((hdr :: t) :: rest).map List.tail).flatten ∧
      out.tail.length = (((hdr :: t) :: rest).map (fun f => f.tail.length)).sum := by
  refine ⟨hdr :: (t ++ (rest.map List.tail).flatten), ?_, ?_, ?_⟩
  · simp [concatenate_csv_files, concatGo, concatGo_true_ok rest h]
  · simp
  · simp [List.length_flatten, List.map_map, Function.comp_def, List.length_tail]

/-- Witness for C5 at three concrete files with 1, 2 and 0 data rows. -/
theorem merge_completeness_witness :
    ∃ out, concatenate_csv_files [[["A"], ["1"]], [["A"], ["2"], ["3"]], [["A"]]] =
        Except.ok out ∧
      out.tail = (([["A"], ["1"]] :: [[["A"], ["2"], ["3"]], [["A"]]]).map List.tail).flatten ∧
      out.tail.length =
        (([["A"], ["1"]] :: [[["A"], ["2"], ["3"]], [["A"]]]).map (fun f => f.tail.length)).sum :=
  merge_completeness ["A"] [["1"]] [[["A"], ["2"], ["3"]], [["A"]]] (by decide)

/-- C7: if any selected input file is empty (has no header row at all),
`next` raises `StopIteration`, which propagates uncaught and aborts the
whole merge: no skipping, no recovery. -/
theorem empty_input_file_aborts_merge (files : List (List (List String)))
    (h : [] ∈ files) :
    concatenate_csv_files files = Except.error PyExn.stopIteration :=
  concatGo_error_of_mem files false [] h

/-- Witness for C7: a non-empty first file followed by an empty file. -/
theorem empty_input_file_aborts_merge_witness :
    ([] : List (List String)) ∈ [[["A"], ["1"]], ([] : List (List String))] ∧
    concatenate_csv_files [[["A"], ["1"]], []] = Except.error PyExn.stopIteration :=
  ⟨by decide, empty_input_file_aborts_merge [[["A"], ["1"]], []] (by decide)⟩

/-! ## Claims about `main` -/

/-- C6: when the input directory does not exist, `main` prints the
missing-directory message and returns normally: no merge and no
validation run, and the output file is left exactly as it was. -/
theorem missing_input_dir_is_noop (w : World) (h : w.inputDirExists = false) :
    pyMain w =
      Except.ok { finalOutput := w.outputFile, dirMissingMsg := true, report := [] } := by
  simp [pyMain, h]

/-- Witness for C6: a world with a missing directory and a pre-existing
output file; the run succeeds and leaves the output file untouched. -/
theorem missing_input_dir_is_noop_witness :
    pyMain { inputDirExists := false, dirEntries := [("a.csv", [["A"], ["1"]])],
             outputFile := Option.some [["old"]] } =
      Except.ok { finalOutput := Option.some [["old"]], dirMissingMsg := true, report := [] } :=
  missing_input_dir_is_noop
    { inputDirExists := false, dirEntries := [("a.csv", [["A"], ["1"]])],
      outputFile := Option.some [["old"]] } rfl

/-- C9: when the input directory exists but no entry has the
case-sensitive suffix ".csv", the run completes without error, the output
file is written completely empty (not even a header row), and the
validation pass prints nothing. -/
theorem no_csv_entries_empty_output (w : World) (h1 : w.inputDirExists = true)
    (h2 : ∀ e ∈ w.dirEntries, pySuffix e.1 ≠ ".csv") :
    pyMain w =
      Except.ok { finalOutput := Option.some [], dirMissingMsg := false, report := [] } := by
  have hf : w.dirEntries.filter (fun e => pySuffix e.1 == ".csv") = [] := by
    refine List.filter_eq_nil_iff.mpr ?_
    intro e he
    simpa using h2 e he
  simp [pyMain, h1, hf, concatenate_csv_files, concatGo, check_csv]

/-- Witness for C9: two entries, one with no dot suffix match and one
with the differently-cased suffix ".CSV"; the stale output is replaced by
an empty file and nothing is reported. -/
theorem no_csv_entries_empty_output_witness :
    pyMain { inputDirExists := true,
             dirEntries := [("notes.txt", [["x"]]), ("data.CSV", [["y"], ["z"]])],
             outputFile := Option.some [["old"]] } =
      Except.ok { finalOutput := Option.some [], dirMissingMsg := false, report := [] } :=
  no_csv_entries_empty_output
    { inputDirExists := true,
      dirEntries := [("notes.txt", [["x"]]), ("data.CSV", [["y"], ["z"]])],
      outputFile := Option.some [["old"]] } rfl (by decide)

/-! ## Lemmas about the validator -/

/-- When a data row is at least as long as the header, every entry of its
`DictReader` mapping holds a string (never the fill-in `None`). -/
lemma zipFill_isSome : ∀ (hdr row : List String), hdr.length ≤ row.length →
    ∀ e ∈ zipFill hdr row, e.2.isSome
  | [], _, _, e, he => by simp [zipFill] at he
  | c :: hs, [], h, e, he => by simp at h
  | c :: hs, v :: vs, h, e, he => by
    simp only [zipFill, List.mem_cons] at he
    rcases he with rfl | he2
    · rfl
    · exact zipFill_isSome hs vs (by simpa using h) e he2

/-- `row.get(k, "")` always produces a string when no entry holds `None`:
either the stored string or the default. -/
lemma pyGet_some (r : DictRow) (h : ∀ e ∈ r.entries, e.2.isSome) (k : String) :
    ∃ s, pyGet r k = Option.some s := by
  unfold pyGet
  cases hf : r.entries.reverse.find? (fun e => e.1 == k) with
  | none => exact ⟨"", rfl⟩
  | some e =>
    have he : e ∈ r.entries := List.mem_reverse.mp (List.mem_of_find?_eq_some hf)
    exact Option.isSome_iff_exists.mp (h e he)

/-- Feeding the continuation a string never raises by itself. -/
lemma onStr_some {α : Type} (s : String) (k : String → Except PyExn α) :
    onStr (Option.some s) k = k s := rfl

/-- A normal `onStr` result means the value was a string and the
continuation produced the result. -/
lemma onStr_eq_ok {α : Type} {v : Option String} {k : String → Except PyExn α}
    {l : α} (h : onStr v k = Except.ok l) :
    ∃ s, v = Option.some s ∧ k s = Except.ok l := by
  cases v with
  | none => exact nomatch h
  | some s => exact ⟨s, rfl, h⟩

lemma step_ok {α β : Type} (a : α) (k : α → Except PyExn β) :
    step (Except.ok a) k = k a := rfl

/-- A normal `step` result means the first statement completed normally
and the continuation produced the result. -/
lemma step_eq_ok {α β : Type} {x : Except PyExn α} {k : α → Except PyExn β}
    {b : β} (h : step x k = Except.ok b) :
    ∃ a, x = Except.ok a ∧ k a = Except.ok b := by
  cases x with
  | error e => exact nomatch h
  | ok a => exact ⟨a, rfl, h⟩

lemma sizeCheck_some (r : DictRow) (s : String) (h : pyGet r COL_SIZE = Option.some s) :
    ∃ l, sizeCheck r = Except.ok l := by
  unfold sizeCheck
  rw [h, onStr_some]
  unfold sizeBody
  cases pyFloat (pyStrip (pyReplace s " Mio" "")) <;> exact ⟨_, rfl⟩

lemma widthCheck_some (r : DictRow) (s : String) (h : pyGet r COL_WIDTH = Option.some s) :
    ∃ l, widthCheck r = Except.ok l := by
  unfold widthCheck
  rw [h, onStr_some]
  exact ⟨_, rfl⟩

lemma filenameCheck_some (r : DictRow) (f o : String)
    (hf : pyGet r COL_FILENAME = Option.some f)
    (ho : pyGet r COL_OBJECT_NAME = Option.some o) :
    ∃ l, filenameCheck r = Except.ok l := by
  unfold filenameCheck
  rw [hf, onStr_some, ho, onStr_some]
  exact ⟨_, rfl⟩

lemma categoryCheck_some (r : DictRow) (s : String)
    (h : pyGet r COL_SUP_CATEGORY = Option.some s) :
    ∃ l, categoryCheck r = Except.ok l := by
  unfold categoryCheck
  rw [h, onStr_some]
  exact ⟨_, rfl⟩

lemma sourceCheck_some (r : DictRow) (s : String) (h : pyGet r COL_SOURCE = Option.some s) :
    ∃ l, sourceCheck r = Except.ok l := by
  unfold sourceCheck
  rw [h, onStr_some]
  exact ⟨_, rfl⟩

/-- A row whose `DictReader` mapping holds only strings passes through
all six checks without an exception. -/
lemma checkRow_ok_of_isSome (r : DictRow) (h : ∀ e ∈ r.entries, e.2.isSome) :
    ∃ l, checkRow r = Except.ok l := by
  obtain ⟨s1, h1⟩ := pyGet_some r h COL_SIZE
  obtain ⟨s2, h2⟩ := pyGet_some r h COL_WIDTH
  obtain ⟨s3, h3⟩ := pyGet_some r h COL_FILENAME
  obtain ⟨s4, h4⟩ := pyGet_some r h COL_OBJECT_NAME
  obtain ⟨s5, h5⟩ := pyGet_some r h COL_SUP_CATEGORY
  obtain ⟨s6, h6⟩ := pyGet_some r h COL_SOURCE
  obtain ⟨l2, e2⟩ := sizeCheck_some r s1 h1
  obtain ⟨l3, e3⟩ := widthCheck_some r s2 h2
  obtain ⟨l4, e4⟩ := filenameCheck_some r s3 s4 h3 h4
  obtain ⟨l5, e5⟩ := categoryCheck_some r s5 h5
  obtain ⟨l6, e6⟩ := sourceCheck_some r s6 h6
  refine ⟨(if anyMissing r then [CheckError.missingData] else [])
    ++ l2 ++ l3 ++ l4 ++ l5 ++ l6, ?_⟩
  unfold checkRow
  rw [e2, step_ok, e3, step_ok, e4, step_ok, e5, step_ok, e6, step_ok]

/-- Validation succeeds on every list of rows that are blank or at least
as long as the header, whatever the starting row number. -/
lemma checkRows_ok (hdr : List String) (rows : List (List String))
    (h : ∀ r ∈ rows, r ≠ [] → hdr.length ≤ r.length) :
    ∀ n, ∃ rpt, checkRows hdr n rows = Except.ok rpt := by
  induction rows with
  | nil => intro n; exact ⟨[], rfl⟩
  | cons row rest ih =>
    intro n
    have hrest : ∀ r ∈ rest, r ≠ [] → hdr.length ≤ r.length :=
      fun r hr => h r (List.mem_cons_of_mem _ hr)
    by_cases hrow : row = []
    · obtain ⟨rpt, hrpt⟩ := ih hrest n
      exact ⟨rpt, by simp only [checkRows, if_pos hrow]; exact hrpt⟩
    · have hlen := h row (List.mem_cons_self _ _) hrow
      obtain ⟨l, hl⟩ := checkRow_ok_of_isSome (dictRead hdr row) (zipFill_isSome hdr row hlen)
      obtain ⟨rpt, hrpt⟩ := ih hrest (n + 1)
      refine ⟨(if l = [] then [] else [(n, dictRead hdr row, l)]) ++ rpt, ?_⟩
      simp only [checkRows, if_neg hrow]
      rw [hl, step_ok, hrpt, step_ok]

/-! ## Claim C1 -/

/-- C1 counterexample: a data row with fewer fields than the header does
NOT make the validator treat the missing columns as empty and keep going:
the missing values are the Python `None`, a string method is called on
`None`, and the resulting `AttributeError` propagates out of
`check_csv`.  Here the 2-field row under the 6-field header reaches the
`Width` lookup with `None` and the validation aborts. -/
theorem short_row_raises :
    check_csv [sampleHeader, ["IMG001", "3 Mio"]] = Except.error PyExn.attributeError := by
  decide

/-- C1 (amended): for every merged file whose data rows are blank or have
at least as many fields as the header, `check_csv` completes without
raising: all six checks run on every row and report only via error
strings.  (Columns absent from the header are still read as the default
empty string; only a row SHORTER than the header produces `None` values,
and those raise, per the counterexample.) -/
theorem check_csv_ok_on_full_rows (hdr : List String) (rows : List (List String))
    (h : ∀ r ∈ rows, r ≠ [] → hdr.length ≤ r.length) :
    ∃ rpt, check_csv (hdr :: rows) = Except.ok rpt :=
  checkRows_ok hdr rows h 1

/-- Witness for C1 (amended) on a one-row file with full-length rows. -/
theorem check_csv_ok_on_full_rows_witness :
    ∃ rpt, check_csv [sampleHeader, sampleRow "3 Mio" "IMG001_front"] = Except.ok rpt :=
  check_csv_ok_on_full_rows sampleHeader [sampleRow "3 Mio" "IMG001_front"] (by decide)

/-! ## Decomposing a successful `checkRow` -/

/-- A successful `checkRow` splits into the six per-check contributions,
in source order, with the missing-data contribution first. -/
lemma checkRow_ok_parts (r : DictRow) (errs : List CheckError)
    (h : checkRow r = Except.ok errs) :
    ∃ e2 e3 e4 e5 e6,
      sizeCheck r = Except.ok e2 ∧ widthCheck r = Except.ok e3 ∧
      filenameCheck r = Except.ok e4 ∧ categoryCheck r = Except.ok e5 ∧
      sourceCheck r = Except.ok e6 ∧
      errs = (if anyMissing r then [CheckError.missingData] else [])
        ++ e2 ++ e3 ++ e4 ++ e5 ++ e6 := by
  unfold checkRow at h
  obtain ⟨e2, h2, h⟩ := step_eq_ok h
  obtain ⟨e3, h3, h⟩ := step_eq_ok h
  obtain ⟨e4, h4, h⟩ := step_eq_ok h
  obtain ⟨e5, h5, h⟩ := step_eq_ok h
  obtain ⟨e6, h6, h⟩ := step_eq_ok h
  exact ⟨e2, e3, e4, e5, e6, h2, h3, h4, h5, h6, (Except.ok.inj h).symm⟩

/-- The size check emits nothing, the parse-failure message, or one
range message. -/
lemma sizeCheck_shape (r : DictRow) (l : List CheckError)
    (h : sizeCheck r = Except.ok l) :
    l = [] ∨ l = [CheckError.invalidSize] ∨ ∃ q, l = [CheckError.sizeOutOfRange q] := by
  obtain ⟨s, hs, h⟩ := onStr_eq_ok h
  unfold sizeBody at h
  revert h
  cases pyFloat (pyStrip (pyReplace s " Mio" "")) with
  | none => intro h; exact Or.inr (Or.inl (Except.ok.inj h).symm)
  | some v =>
    intro h
    replace h := (Except.ok.inj h).symm
    by_cases hc : (pyLe MIN_SIZE v && pyLe v MAX_SIZE) = true
    · rw [if_pos hc] at h; exact Or.inl h
    · rw [if_neg hc] at h; exact Or.inr (Or.inr ⟨v, h⟩)

/-- The width check emits nothing or one width message. -/
lemma widthCheck_shape (r : DictRow) (l : List CheckError)
    (h : widthCheck r = Except.ok l) :
    l = [] ∨ ∃ w, l = [CheckError.widthMismatch w] := by
  obtain ⟨s, hs, h⟩ := onStr_eq_ok h
  unfold widthBody at h
  replace h := (Except.ok.inj h).symm
  by_cases hc : pyStrip s = WIDTH_DPI
  · rw [if_pos hc] at h; exact Or.inl h
  · rw [if_neg hc] at h; exact Or.inr ⟨pyStrip s, h⟩

/-- The filename check emits nothing or one mismatch message. -/
lemma filenameCheck_shape (r : DictRow) (l : List CheckError)
    (h : filenameCheck r = Except.ok l) :
    l = [] ∨ ∃ f p, l = [CheckError.filenameMismatch f p] := by
  obtain ⟨f, hf, h⟩ := onStr_eq_ok h
  obtain ⟨o, ho, h⟩ := onStr_eq_ok h
  unfold filenameBody at h
  replace h := (Except.ok.inj h).symm
  by_cases hc : pyStrip f = underscoreHead (pyStrip o)
  · rw [if_pos hc] at h; exact Or.inl h
  · rw [if_neg hc] at h; exact Or.inr ⟨pyStrip f, underscoreHead (pyStrip o), h⟩

/-- The category check emits nothing or one category message. -/
lemma categoryCheck_shape (r : DictRow) (l : List CheckError)
    (h : categoryCheck r = Except.ok l) :
    l = [] ∨ ∃ c, l = [CheckError.categoryMismatch c] := by
  obtain ⟨s, hs, h⟩ := onStr_eq_ok h
  unfold categoryBody at h
  replace h := (Except.ok.inj h).symm
  by_cases hc : pyStrip s = CATEGORY
  · rw [if_pos hc] at h; exact Or.inl h
  · rw [if_neg hc] at h; exact Or.inr ⟨pyStrip s, h⟩

/-- The source check emits nothing or one source message. -/
lemma sourceCheck_shape (r : DictRow) (l : List CheckError)
    (h : sourceCheck r = Except.ok l) :
    l = [] ∨ ∃ c, l = [CheckError.sourceMismatch c] := by
  obtain ⟨s, hs, h⟩ := onStr_eq_ok h
  unfold sourceBody at h
  replace h := (Except.ok.inj h).symm
  by_cases hc : pyStrip s = SOURCE
  · rw [if_pos hc] at h; exact Or.inl h
  · rw [if_neg hc] at h; exact Or.inr ⟨pyStrip s, h⟩

/-! ## Claim C2 -/

/-- The size preprocessing as the spec words it: strip one trailing
literal " Mio" substring, then surrounding whitespace.  (The code instead
replaces every occurrence of " Mio" anywhere in the field; this
definition exists only to state that discrepancy.) -/
def stripTrailingMioSpec (s : String) : String :=
  pyStrip ⟨(if leadsWith " Mio".data.reverse s.data.reverse
            then s.data.reverse.drop 4 else s.data.reverse).reverse⟩

/-- C2 counterexample: on a row whose `Size` field is " Mio2", the parse
described by the claim (strip a TRAILING " Mio", then whitespace) fails,
yet the code appends no "Invalid Size value" error at all: it replaces
the leading " Mio" occurrence too, leaving "2", which parses and is in
range, so the row validates cleanly. -/
theorem invalid_size_trailing_counterexample :
    pyFloat (stripTrailingMioSpec " Mio2") = Option.none ∧
    checkRow (dictRead sampleHeader (sampleRow " Mio2" "IMG001_front")) = Except.ok [] := by
  decide

/-- C2 (amended): for every row whose `Size` lookup yields a string `s`
(a row short of the `Size` column raises instead, see C1), the size check
parses `float` of `s` with EVERY occurrence of " Mio" removed and
whitespace stripped, and the row error list contains "Invalid Size value"
exactly when that parse fails. -/
theorem invalid_size_error_iff_parse_fails (r : DictRow) (s : String)
    (errs : List CheckError) (hs : pyGet r COL_SIZE = Option.some s)
    (h : checkRow r = Except.ok errs) :
    CheckError.invalidSize ∈ errs ↔
      pyFloat (pyStrip (pyReplace s " Mio" "")) = Option.none := by
  obtain ⟨e2, e3, e4, e5, e6, h2, h3, h4, h5, h6, he⟩ := checkRow_ok_parts r errs h
  subst he
  have m1 : CheckError.invalidSize ∉ (if anyMissing r then [CheckError.missingData] else []) := by
    split <;> simp
  have m3 : CheckError.invalidSize ∉ e3 := by
    rcases widthCheck_shape r e3 h3 with rfl | ⟨w, rfl⟩ <;> simp
  have m4 : CheckError.invalidSize ∉ e4 := by
    rcases filenameCheck_shape r e4 h4 with rfl | ⟨f, p, rfl⟩ <;> simp
  have m5 : CheckError.invalidSize ∉ e5 := by
    rcases categoryCheck_shape r e5 h5 with rfl | ⟨c, rfl⟩ <;> simp
  have m6 : CheckError.invalidSize ∉ e6 := by
    rcases sourceCheck_shape r e6 h6 with rfl | ⟨c, rfl⟩ <;> simp
  unfold sizeCheck at h2
  rw [hs, onStr_some] at h2
  unfold sizeBody at h2
  revert h2
  cases hp : pyFloat (pyStrip (pyReplace s " Mio" "")) with
  | none =>
    intro h2
    replace h2 := (Except.ok.inj h2).symm
    subst h2
    simp [m1, m3, m4, m5, m6]
  | some v =>
    intro h2
    replace h2 := (Except.ok.inj h2).symm
    have m2 : CheckError.invalidSize ∉ e2 := by
      subst h2; split <;> simp
    simp [m1, m2, m3, m4, m5, m6]

/-- Witness for C2 (amended) on a row whose `Size` field is the
unparsable "abc": the single reported error is "Invalid Size value". -/
theorem invalid_size_error_iff_parse_fails_witness :
    CheckError.invalidSize ∈ [CheckError.invalidSize] ↔
      pyFloat (pyStrip (pyReplace "abc" " Mio" "")) = Option.none :=
  invalid_size_error_iff_parse_fails
    (dictRead sampleHeader (sampleRow "abc" "IMG001_front")) "abc"
    [CheckError.invalidSize] (by decide) (by decide)

/-! ## Claim C3 -/

/-- C3: the size range check is inclusive on both bounds: "2 Mio" and
"4 Mio" pass with no error at all, while "1.99 Mio" and "4.01 Mio" each
report the range error naming the offending value (the payloads denote
199/100 and 401/100; the printed message also names the bounds 2-4). -/
theorem size_range_inclusive_boundaries :
    checkRow (dictRead sampleHeader (sampleRow "2 Mio" "IMG001_front")) = Except.ok [] ∧
    checkRow (dictRead sampleHeader (sampleRow "4 Mio" "IMG001_front")) = Except.ok [] ∧
    checkRow (dictRead sampleHeader (sampleRow "1.99 Mio" "IMG001_front")) =
      Except.ok [CheckError.sizeOutOfRange (PyFloat.finite 199 2)] ∧
    checkRow (dictRead sampleHeader (sampleRow "4.01 Mio" "IMG001_front")) =
      Except.ok [CheckError.sizeOutOfRange (PyFloat.finite 401 2)] := by
  decide

/-! ## Claim C8 -/

/-- C8: for every row whose `Filename` and `IPTC:ObjectName` lookups
yield strings, the reported error list contains the mismatch error naming
the trimmed `Filename` and the part of the trimmed `IPTC:ObjectName`
before its first underscore exactly when those two values differ. -/
theorem filename_matches_objectname_head (r : DictRow) (f o : String)
    (errs : List CheckError) (hf : pyGet r COL_FILENAME = Option.some f)
    (ho : pyGet r COL_OBJECT_NAME = Option.some o)
    (h : checkRow r = Except.ok errs) :
    CheckError.filenameMismatch (pyStrip f) (underscoreHead (pyStrip o)) ∈ errs ↔
      pyStrip f ≠ underscoreHead (pyStrip o) := by
  obtain ⟨e2, e3, e4, e5, e6, h2, h3, h4, h5, h6, he⟩ := checkRow_ok_parts r errs h
  subst he
  have m1 : CheckError.filenameMismatch (pyStrip f) (underscoreHead (pyStrip o)) ∉
      (if anyMissing r then [CheckError.missingData] else []) := by
    split <;> simp
  have m2 : CheckError.filenameMismatch (pyStrip f) (underscoreHead (pyStrip o)) ∉ e2 := by
    rcases sizeCheck_shape r e2 h2 with rfl | rfl | ⟨q, rfl⟩ <;> simp
  have m3 : CheckError.filenameMismatch (pyStrip f) (underscoreHead (pyStrip o)) ∉ e3 := by
    rcases widthCheck_shape r e3 h3 with rfl | ⟨w, rfl⟩ <;> simp
  have m5 : CheckError.filenameMismatch (pyStrip f) (underscoreHead (pyStrip o)) ∉ e5 := by
    rcases categoryCheck_shape r e5 h5 with rfl | ⟨c, rfl⟩ <;> simp
  have m6 : CheckError.filenameMismatch (pyStrip f) (underscoreHead (pyStrip o)) ∉ e6 := by
    rcases sourceCheck_shape r e6 h6 with rfl | ⟨c, rfl⟩ <;> simp
  unfold filenameCheck at h4
  rw [hf, onStr_some, ho, onStr_some] at h4
  unfold filenameBody at h4
  replace h4 := (Except.ok.inj h4).symm
  by_cases hc : pyStrip f = underscoreHead (pyStrip o)
  · rw [if_pos hc] at h4
    subst h4
    rw [hc] at m1 m2 m3 m5 m6
    simp [m1, m2, m3, m5, m6, hc]
  · rw [if_neg hc] at h4
    subst h4
    simp [m1, m2, m3, m5, m6, hc]

/-- Witness for C8 at the examples of the claim: `Filename` "IMG001"
with `IPTC:ObjectName` "IMG001_front" reports nothing, while
"IMG002_front" reports the mismatch naming "IMG001" and "IMG002". -/
theorem filename_matches_objectname_head_witness :
    (CheckError.filenameMismatch "IMG001" "IMG001" ∈ ([] : List CheckError) ↔
      ("IMG001" : String) ≠ "IMG001") ∧
    (CheckError.filenameMismatch "IMG001" "IMG002" ∈
        [CheckError.filenameMismatch "IMG001" "IMG002"] ↔
      ("IMG001" : String) ≠ "IMG002") :=
  ⟨filename_matches_objectname_head
      (dictRead sampleHeader (sampleRow "3 Mio" "IMG001_front")) "IMG001" "IMG001_front"
      [] (by decide) (by decide) (by decide),
   filename_matches_objectname_head
      (dictRead sampleHeader (sampleRow "3 Mio" "IMG002_front")) "IMG001" "IMG002_front"
      [CheckError.filenameMismatch "IMG001" "IMG002"] (by decide) (by decide) (by decide)⟩

/-! ## Claim C10 -/

/-- C10: a successfully validated row reports "Missing data" at most
once, however many of its field values are empty or `None`: the check
appends one message for the whole row, and no other check emits it. -/
theorem missing_data_at_most_once (r : DictRow) (errs : List CheckError)
    (h : checkRow r = Except.ok errs) :
    errs.count CheckError.missingData ≤ 1 := by
  obtain ⟨e2, e3, e4, e5, e6, h2, h3, h4, h5, h6, he⟩ := checkRow_ok_parts r errs h
  subst he
  have c2 : e2.count CheckError.missingData = 0 := List.count_eq_zero.mpr (by
    rcases sizeCheck_shape r e2 h2 with rfl | rfl | ⟨q, rfl⟩ <;> simp)
  have c3 : e3.count CheckError.missingData = 0 := List.count_eq_zero.mpr (by
    rcases widthCheck_shape r e3 h3 with rfl | ⟨w, rfl⟩ <;> simp)
  have c4 : e4.count CheckError.missingData = 0 := List.count_eq_zero.mpr (by
    rcases filenameCheck_shape r e4 h4 with rfl | ⟨f, p, rfl⟩ <;> simp)
  have c5 : e5.count CheckError.missingData = 0 := List.count_eq_zero.mpr (by
    rcases categoryCheck_shape r e5 h5 with rfl | ⟨c, rfl⟩ <;> simp)
  have c6 : e6.count CheckError.missingData = 0 := List.count_eq_zero.mpr (by
    rcases sourceCheck_shape r e6 h6 with rfl | ⟨c, rfl⟩ <;> simp)
  have c1 : (if anyMissing r then [CheckError.missingData] else []).count
      CheckError.missingData ≤ 1 := by
    split <;> simp
  simpa [List.count_append, c2, c3, c4, c5, c6] using c1

/-- Witness for C10 on a row all six of whose fields are empty: several
checks fail, but "Missing data" is reported exactly once. -/
theorem missing_data_at_most_once_witness :
    List.count CheckError.missingData
      [CheckError.missingData, CheckError.invalidSize, CheckError.widthMismatch "",
        CheckError.categoryMismatch "", CheckError.sourceMismatch ""] ≤ 1 :=
  missing_data_at_most_once (dictRead sampleHeader ["", "", "", "", "", ""])
    [CheckError.missingData, CheckError.invalidSize, CheckError.widthMismatch "",
      CheckError.categoryMismatch "", CheckError.sourceMismatch ""] (by decide)

end IPTCconcapy
